import Mathlib

/-!
Verification of the Lattice Python SDK (`lattice_sdk`): a shallow embedding of
`models.py` (entity decode/encode), `client.py` (transport response handling,
operation request building) and `exceptions.py` (error taxonomy), with theorems
settling the specification's claims about marshalling, omission rules, round
trips, and error behaviour.

Python is dynamically typed, so wire values and most entity fields are
modelled by a single dynamic value type `Py` (JSON values plus `datetime`
objects, since decoded timestamp fields hold `datetime` values).  Python
dicts are modelled as insertion-ordered association lists with unique keys.
Functions that can raise a Python exception on some inputs return `Except`.
-/

namespace Lattice

/-- A Python `datetime` value as produced by `datetime.fromisoformat`:
calendar fields plus an optional fixed UTC offset (in microseconds). -/
structure PyDatetime where
  year : Nat
  month : Nat
  day : Nat
  hour : Nat := 0
  minute : Nat := 0
  second : Nat := 0
  microsecond : Nat := 0
  tzOffset : Option Int := none
deriving DecidableEq, Repr

/-- A dynamic Python value: the JSON values (`None`, `bool`, `int`, `str`,
`list`, `dict`) plus `datetime` objects.  `dict` is an insertion-ordered
association list (Python dict keys are unique; lookups assume that). -/
inductive Py where
  | none
  | bool (b : Bool)
  | int (n : Int)
  | str (s : String)
  | list (xs : List Py)
  | dict (xs : List (String × Py))
  | dt (d : PyDatetime)
deriving Repr

/-- A Python dict payload: ordered key/value pairs with unique keys. -/
abbrev PyDict := List (String × Py)

/-- Python truthiness (`bool(v)`): `None`, `False`, `0`, `""`, `[]`, `{}` are
falsy; everything else (including any `datetime`) is truthy. -/
def pyTruthy : Py → Bool
  | .none => false
  | .bool b => b
  | .int n => n != 0
  | .str s => s != ""
  | .list xs => !xs.isEmpty
  | .dict xs => !xs.isEmpty
  | .dt _ => true

/-- Python `v is not None`. -/
def isNotNone : Py → Bool
  | .none => false
  | _ => true

/-- Python `d.get(k)` restricted to a present key: first (unique) match. -/
def pyGet? : PyDict → String → Option Py
  | [], _ => none
  | (k', v) :: r, k => if k' == k then some v else pyGet? r k

/-- Python `d.get(k, default)`. -/
def pyGetD (d : PyDict) (k : String) (v : Py) : Py :=
  (pyGet? d k).getD v

/-- Python `k in d` on a dict. -/
def hasKey : PyDict → String → Bool
  | [], _ => false
  | (k', _) :: r, k => k' == k || hasKey r k

/-- Python `a or b`: `a` when truthy, else `b`. -/
def pyOr (a b : Py) : Py :=
  if pyTruthy a then a else b

/-- Conditional dict entry: models Python's `if cond: result[k] = v` while the
dict is being built (entries appear in source order when their guard holds). -/
def consIf (b : Bool) (kv : String × Py) (rest : PyDict) : PyDict :=
  if b then kv :: rest else rest

/-! ### `datetime.fromisoformat` (Python 3.10 grammar)

The Python standard library is an external collaborator of the SDK; its ISO
parser is modelled here on the documented 3.10 grammar
`YYYY-MM-DD[*HH[:MM[:SS[.fff[fff]]]]][+HH:MM[:SS[.ffffff]]]`: an exact
ten-character date, an arbitrary one-character separator, colon-separated
two-digit time components, a fraction of exactly three or six digits allowed
only after seconds, and an offset split at the first `-`/`+` of the time part
whose length must be 5, 8 or 15 and whose magnitude must be under 24 hours.
Numeric components are read as plain digit runs. -/

/-- Decimal digit test for the parser. -/
def isDigitChar (c : Char) : Bool := '0' ≤ c && c ≤ '9'

/-- Value of a decimal digit character. -/
def digitVal (c : Char) : Nat := c.toNat - '0'.toNat

/-- Exactly two digits, returning the value and the rest. -/
def digits2 : List Char → Option (Nat × List Char)
  | a :: b :: r =>
    if isDigitChar a && isDigitChar b then some (digitVal a * 10 + digitVal b, r)
    else none
  | _ => none

/-- A fractional-seconds suffix: exactly three or six digits, nothing after. -/
def parseFraction : List Char → Option Nat
  | [a, b, c] =>
    if isDigitChar a && isDigitChar b && isDigitChar c then
      some ((digitVal a * 100 + digitVal b * 10 + digitVal c) * 1000)
    else none
  | [a, b, c, d, e, f] =>
    if isDigitChar a && isDigitChar b && isDigitChar c && isDigitChar d &&
        isDigitChar e && isDigitChar f then
      some (digitVal a * 100000 + digitVal b * 10000 + digitVal c * 1000 +
        digitVal d * 100 + digitVal e * 10 + digitVal f)
    else none
  | _ => none

/-- The `HH[:MM[:SS[.fff[fff]]]]` time grammar, consuming the whole input:
hour, minute, second, microsecond. -/
def parseHMSF (cs : List Char) : Option (Nat × Nat × Nat × Nat) :=
  match digits2 cs with
  | none => none
  | some (h, r) =>
    match r with
    | [] => some (h, 0, 0, 0)
    | ':' :: r2 =>
      match digits2 r2 with
      | none => none
      | some (m, r3) =>
        match r3 with
        | [] => some (h, m, 0, 0)
        | ':' :: r4 =>
          match digits2 r4 with
          | none => none
          | some (s, r5) =>
            match r5 with
            | [] => some (h, m, s, 0)
            | '.' :: r6 => (parseFraction r6).map (fun us => (h, m, s, us))
            | _ => none
        | _ => none
    | _ => none

/-- The exact ten-character `YYYY-MM-DD` date. -/
def parseIsoDate : List Char → Option (Nat × Nat × Nat)
  | [y1, y2, y3, y4, '-', m1, m2, '-', d1, d2] =>
    if isDigitChar y1 && isDigitChar y2 && isDigitChar y3 && isDigitChar y4 &&
        isDigitChar m1 && isDigitChar m2 && isDigitChar d1 && isDigitChar d2 then
      some (digitVal y1 * 1000 + digitVal y2 * 100 + digitVal y3 * 10 + digitVal y4,
        digitVal m1 * 10 + digitVal m2,
        digitVal d1 * 10 + digitVal d2)
    else none
  | _ => none

/-- Splits the time string at the offset sign: CPython looks for the first
`-`, falling back to the first `+`; the flag is `true` for a negative sign. -/
def splitTz (cs : List Char) : List Char × Option (Bool × List Char) :=
  match cs.findIdx? (· == '-') with
  | some i => (cs.take i, some (true, cs.drop (i + 1)))
  | none =>
    match cs.findIdx? (· == '+') with
    | some i => (cs.take i, some (false, cs.drop (i + 1)))
    | none => (cs, none)

/-- Day count of a month, with the Gregorian leap rule. -/
def daysInMonth (y m : Nat) : Nat :=
  if m = 2 then
    if y % 4 = 0 && (y % 100 ≠ 0 || y % 400 = 0) then 29 else 28
  else if m = 4 || m = 6 || m = 9 || m = 11 then 30
  else 31

/-- The `datetime` constructor's date validation (`MINYEAR = 1`). -/
def validDate (y m d : Nat) : Bool :=
  1 ≤ y && y ≤ 9999 && 1 ≤ m && m ≤ 12 && 1 ≤ d && d ≤ daysInMonth y m

/-- The `datetime` constructor's time validation. -/
def validTime (h mi s us : Nat) : Bool :=
  h ≤ 23 && mi ≤ 59 && s ≤ 59 && us ≤ 999999

/-- Model of `datetime.fromisoformat` (3.10 grammar, see above): `none` models
a raised `ValueError`. -/
def fromisoformat? (s : String) : Option PyDatetime :=
  let cs := s.data
  match parseIsoDate (cs.take 10) with
  | none => none
  | some (y, m, d) =>
    if !validDate y m d then none
    else if cs.length = 10 then some { year := y, month := m, day := d }
    else if cs.length = 11 then none
    else
      let tstr := cs.drop 11
      let (timePart, tzPart) := splitTz tstr
      match parseHMSF timePart with
      | none => none
      | some (h, mi, sec, us) =>
        if !validTime h mi sec us then none
        else
          match tzPart with
          | none =>
            some { year := y, month := m, day := d, hour := h, minute := mi,
                   second := sec, microsecond := us }
          | some (neg, tzs) =>
            if tzs.length = 5 || tzs.length = 8 || tzs.length = 15 then
              match parseHMSF tzs with
              | none => none
              | some (th, tm, ts, tus) =>
                let total : Int := (((th * 3600 + tm * 60 + ts) * 1000000 + tus : Nat) : Int)
                if total < 24 * 3600 * 1000000 then
                  some { year := y, month := m, day := d, hour := h, minute := mi,
                         second := sec, microsecond := us,
                         tzOffset := some (if neg then -total else total) }
                else none
            else none

/-- Python `value.rstrip("Z")`: drop every trailing `Z`. -/
def stripTrailingZ (s : String) : String :=
  ⟨(s.data.reverse.dropWhile (· == 'Z')).reverse⟩

/-- `models._parse_datetime`: `None` passes through, `datetime` values pass
through, strings are `Z`-stripped and given to `fromisoformat` (an unparseable
string yields `None` via the caught `ValueError`), anything else yields
`None`. -/
def parseDatetime : Py → Py
  | .none => .none
  | .dt t => .dt t
  | .str s =>
    match fromisoformat? (stripTrailingZ s) with
    | some t => .dt t
    | none => .none
  | _ => .none

/-! ### Enumerations (`models.py`) -/

/-- Schema enforcement mode for collections. -/
inductive SchemaEnforcementMode where
  | NONE
  | STRICT
  | FLEXIBLE
  | PARTIAL
deriving DecidableEq, Repr

/-- Wire value of a `SchemaEnforcementMode` member. -/
def SchemaEnforcementMode.value : SchemaEnforcementMode → String
  | .NONE => "None"
  | .STRICT => "Strict"
  | .FLEXIBLE => "Flexible"
  | .PARTIAL => "Partial"

/-- Indexing mode for collections. -/
inductive IndexingMode where
  | ALL
  | SELECTIVE
  | NONE
deriving DecidableEq, Repr

/-- Wire value of an `IndexingMode` member. -/
def IndexingMode.value : IndexingMode → String
  | .ALL => "All"
  | .SELECTIVE => "Selective"
  | .NONE => "None"

/-- Search condition operators. -/
inductive SearchCondition where
  | EQUALS
  | NOT_EQUALS
  | GREATER_THAN
  | GREATER_THAN_OR_EQUAL_TO
  | LESS_THAN
  | LESS_THAN_OR_EQUAL_TO
  | IS_NULL
  | IS_NOT_NULL
  | CONTAINS
  | STARTS_WITH
  | ENDS_WITH
  | LIKE
deriving DecidableEq, Repr

/-- Wire value of a `SearchCondition` member. -/
def SearchCondition.value : SearchCondition → String
  | .EQUALS => "Equals"
  | .NOT_EQUALS => "NotEquals"
  | .GREATER_THAN => "GreaterThan"
  | .GREATER_THAN_OR_EQUAL_TO => "GreaterThanOrEqualTo"
  | .LESS_THAN => "LessThan"
  | .LESS_THAN_OR_EQUAL_TO => "LessThanOrEqualTo"
  | .IS_NULL => "IsNull"
  | .IS_NOT_NULL => "IsNotNull"
  | .CONTAINS => "Contains"
  | .STARTS_WITH => "StartsWith"
  | .ENDS_WITH => "EndsWith"
  | .LIKE => "Like"

/-- Enumeration ordering options. -/
inductive EnumerationOrder where
  | CREATED_ASCENDING
  | CREATED_DESCENDING
  | LAST_UPDATE_ASCENDING
  | LAST_UPDATE_DESCENDING
  | NAME_ASCENDING
  | NAME_DESCENDING
deriving DecidableEq, Repr

/-- Wire value of an `EnumerationOrder` member. -/
def EnumerationOrder.value : EnumerationOrder → String
  | .CREATED_ASCENDING => "CreatedAscending"
  | .CREATED_DESCENDING => "CreatedDescending"
  | .LAST_UPDATE_ASCENDING => "LastUpdateAscending"
  | .LAST_UPDATE_DESCENDING => "LastUpdateDescending"
  | .NAME_ASCENDING => "NameAscending"
  | .NAME_DESCENDING => "NameDescending"

/-- Python `value.lower()` (the enum wire values are ASCII). -/
def strLower (s : String) : String :=
  ⟨s.data.map Char.toLower⟩

/-- `models._parse_schema_enforcement_mode` on wire values: case-insensitive
string match, anything unrecognized (or non-string) falls back to `NONE`. -/
def parseSchemaEnforcementMode : Py → SchemaEnforcementMode
  | .str s =>
    let l := strLower s
    if l = "none" then .NONE
    else if l = "strict" then .STRICT
    else if l = "flexible" then .FLEXIBLE
    else if l = "partial" then .PARTIAL
    else .NONE
  | _ => .NONE

/-- `models._parse_indexing_mode` on wire values: case-insensitive string
match, anything unrecognized (or non-string) falls back to `ALL`. -/
def parseIndexingMode : Py → IndexingMode
  | .str s =>
    let l := strLower s
    if l = "all" then .ALL
    else if l = "selective" then .SELECTIVE
    else if l = "none" then .NONE
    else .ALL
  | _ => .ALL

/-! ### Entities and their decode operations (`models.py`)

Each `from_dict` classmethod returns `None` for a `None` argument, builds the
dataclass from a dict argument, and raises `AttributeError` on any other
argument (the `.get` calls); this is the `Except Unit (Option _)` shape.  The
dict branch of each is factored out as `<entity>OfDict`. -/

/-- The `Collection` dataclass.  Dynamically-typed fields are `Py`; the two
enum fields always hold enum members (their parsers are total). -/
structure Collection where
  id : Py := .str ""
  name : Py := .str ""
  description : Py := .none
  documents_directory : Py := .none
  labels : Py := .list []
  tags : Py := .dict []
  created_utc : Py := .none
  last_update_utc : Py := .none
  schema_enforcement_mode : SchemaEnforcementMode := .NONE
  indexing_mode : IndexingMode := .ALL
deriving Repr

/-- Dict branch of `Collection.from_dict`. -/
def collectionOfDict (d : PyDict) : Collection :=
  { id := pyGetD d "id" (.str "")
    name := pyGetD d "name" (.str "")
    description := pyGetD d "description" .none
    documents_directory := pyGetD d "documentsDirectory" .none
    labels := pyOr (pyGetD d "labels" (.list [])) (.list [])
    tags := pyOr (pyGetD d "tags" (.dict [])) (.dict [])
    created_utc := parseDatetime (pyGetD d "createdUtc" .none)
    last_update_utc := parseDatetime (pyGetD d "lastUpdateUtc" .none)
    schema_enforcement_mode :=
      parseSchemaEnforcementMode (pyGetD d "schemaEnforcementMode" (.str "None"))
    indexing_mode := parseIndexingMode (pyGetD d "indexingMode" (.str "All")) }

/-- `Collection.from_dict`. -/
def Collection.fromDict : Py → Except Unit (Option Collection)
  | .none => .ok none
  | .dict d => .ok (some (collectionOfDict d))
  | _ => .error ()

/-- The `Document` dataclass. -/
structure Document where
  id : Py := .str ""
  collection_id : Py := .str ""
  schema_id : Py := .str ""
  name : Py := .none
  labels : Py := .list []
  tags : Py := .dict []
  created_utc : Py := .none
  last_update_utc : Py := .none
  content : Py := .none
  content_length : Py := .int 0
  sha256_hash : Py := .none
deriving Repr

/-- Dict branch of `Document.from_dict`. -/
def documentOfDict (d : PyDict) : Document :=
  { id := pyGetD d "id" (.str "")
    collection_id := pyGetD d "collectionId" (.str "")
    schema_id := pyGetD d "schemaId" (.str "")
    name := pyGetD d "name" .none
    labels := pyOr (pyGetD d "labels" (.list [])) (.list [])
    tags := pyOr (pyGetD d "tags" (.dict [])) (.dict [])
    created_utc := parseDatetime (pyGetD d "createdUtc" .none)
    last_update_utc := parseDatetime (pyGetD d "lastUpdateUtc" .none)
    content := pyGetD d "content" .none
    content_length := pyGetD d "contentLength" (.int 0)
    sha256_hash := pyGetD d "sha256Hash" .none }

/-- `Document.from_dict`. -/
def Document.fromDict : Py → Except Unit (Option Document)
  | .none => .ok none
  | .dict d => .ok (some (documentOfDict d))
  | _ => .error ()

/-- The `Schema` dataclass. -/
structure Schema where
  id : Py := .str ""
  name : Py := .none
  hash : Py := .none
  created_utc : Py := .none
  last_update_utc : Py := .none
deriving Repr

/-- Dict branch of `Schema.from_dict`. -/
def schemaOfDict (d : PyDict) : Schema :=
  { id := pyGetD d "id" (.str "")
    name := pyGetD d "name" .none
    hash := pyGetD d "hash" .none
    created_utc := parseDatetime (pyGetD d "createdUtc" .none)
    last_update_utc := parseDatetime (pyGetD d "lastUpdateUtc" .none) }

/-- `Schema.from_dict`. -/
def Schema.fromDict : Py → Except Unit (Option Schema)
  | .none => .ok none
  | .dict d => .ok (some (schemaOfDict d))
  | _ => .error ()

/-- The `SchemaElement` dataclass. -/
structure SchemaElement where
  id : Py := .str ""
  schema_id : Py := .str ""
  position : Py := .int 0
  key : Py := .str ""
  data_type : Py := .str ""
  nullable : Py := .bool false
  created_utc : Py := .none
  last_update_utc : Py := .none
deriving Repr

/-- Dict branch of `SchemaElement.from_dict`. -/
def schemaElementOfDict (d : PyDict) : SchemaElement :=
  { id := pyGetD d "id" (.str "")
    schema_id := pyGetD d "schemaId" (.str "")
    position := pyGetD d "position" (.int 0)
    key := pyGetD d "key" (.str "")
    data_type := pyGetD d "dataType" (.str "")
    nullable := pyGetD d "nullable" (.bool false)
    created_utc := parseDatetime (pyGetD d "createdUtc" .none)
    last_update_utc := parseDatetime (pyGetD d "lastUpdateUtc" .none) }

/-- `SchemaElement.from_dict`. -/
def SchemaElement.fromDict : Py → Except Unit (Option SchemaElement)
  | .none => .ok none
  | .dict d => .ok (some (schemaElementOfDict d))
  | _ => .error ()

/-- The `FieldConstraint` dataclass (note `nullable` defaults to `True`). -/
structure FieldConstraint where
  id : Py := .str ""
  collection_id : Py := .str ""
  field_path : Py := .str ""
  data_type : Py := .none
  required : Py := .bool false
  nullable : Py := .bool true
  regex_pattern : Py := .none
  min_value : Py := .none
  max_value : Py := .none
  min_length : Py := .none
  max_length : Py := .none
  allowed_values : Py := .none
  array_element_type : Py := .none
  created_utc : Py := .none
  last_update_utc : Py := .none
deriving Repr

/-- Dict branch of `FieldConstraint.from_dict`. -/
def fieldConstraintOfDict (d : PyDict) : FieldConstraint :=
  { id := pyGetD d "id" (.str "")
    collection_id := pyGetD d "collectionId" (.str "")
    field_path := pyGetD d "fieldPath" (.str "")
    data_type := pyGetD d "dataType" .none
    required := pyGetD d "required" (.bool false)
    nullable := pyGetD d "nullable" (.bool true)
    regex_pattern := pyGetD d "regexPattern" .none
    min_value := pyGetD d "minValue" .none
    max_value := pyGetD d "maxValue" .none
    min_length := pyGetD d "minLength" .none
    max_length := pyGetD d "maxLength" .none
    allowed_values := pyGetD d "allowedValues" .none
    array_element_type := pyGetD d "arrayElementType" .none
    created_utc := parseDatetime (pyGetD d "createdUtc" .none)
    last_update_utc := parseDatetime (pyGetD d "lastUpdateUtc" .none) }

/-- `FieldConstraint.from_dict`. -/
def FieldConstraint.fromDict : Py → Except Unit (Option FieldConstraint)
  | .none => .ok none
  | .dict d => .ok (some (fieldConstraintOfDict d))
  | _ => .error ()

/-- `FieldConstraint.to_dict`: `fieldPath` unconditionally, then each field
behind its source guard (truthiness for `dataType`/`required`/`regexPattern`/
`allowedValues`/`arrayElementType`, falsiness for `nullable`, `is not None`
for the numeric bounds); `id`, `collectionId` and the timestamps are never
emitted. -/
def FieldConstraint.toDict (c : FieldConstraint) : PyDict :=
  ("fieldPath", c.field_path) ::
  consIf (pyTruthy c.data_type) ("dataType", c.data_type)
  (consIf (pyTruthy c.required) ("required", c.required)
  (consIf (!pyTruthy c.nullable) ("nullable", c.nullable)
  (consIf (pyTruthy c.regex_pattern) ("regexPattern", c.regex_pattern)
  (consIf (isNotNone c.min_value) ("minValue", c.min_value)
  (consIf (isNotNone c.max_value) ("maxValue", c.max_value)
  (consIf (isNotNone c.min_length) ("minLength", c.min_length)
  (consIf (isNotNone c.max_length) ("maxLength", c.max_length)
  (consIf (pyTruthy c.allowed_values) ("allowedValues", c.allowed_values)
  (consIf (pyTruthy c.array_element_type) ("arrayElementType", c.array_element_type)
  [])))))))))

/-- The `IndexedField` dataclass. -/
structure IndexedField where
  id : Py := .str ""
  collection_id : Py := .str ""
  field_path : Py := .str ""
  created_utc : Py := .none
  last_update_utc : Py := .none
deriving Repr

/-- Dict branch of `IndexedField.from_dict`. -/
def indexedFieldOfDict (d : PyDict) : IndexedField :=
  { id := pyGetD d "id" (.str "")
    collection_id := pyGetD d "collectionId" (.str "")
    field_path := pyGetD d "fieldPath" (.str "")
    created_utc := parseDatetime (pyGetD d "createdUtc" .none)
    last_update_utc := parseDatetime (pyGetD d "lastUpdateUtc" .none) }

/-- `IndexedField.from_dict`. -/
def IndexedField.fromDict : Py → Except Unit (Option IndexedField)
  | .none => .ok none
  | .dict d => .ok (some (indexedFieldOfDict d))
  | _ => .error ()

/-- The `SearchFilter` dataclass.  Its fields are typed per the dataclass
annotations, since filters are caller-constructed encode-side values. -/
structure SearchFilter where
  field : String
  condition : SearchCondition
  value : Option String := none
deriving DecidableEq, Repr

/-- `SearchFilter.to_dict`: `field` and `condition` unconditionally, `value`
exactly when it `is not None` (the condition is not consulted). -/
def SearchFilter.toDict (f : SearchFilter) : PyDict :=
  ("field", .str f.field) ::
  ("condition", .str f.condition.value) ::
  consIf f.value.isSome ("value", .str (f.value.getD "")) []

/-- Python truthiness of an `Optional[List]` argument: truthy exactly when
present and non-empty. -/
def optListTruthy {α : Type} : Option (List α) → Bool
  | none => false
  | some xs => !xs.isEmpty

/-- Python truthiness of an `Optional[str]` argument. -/
def optStrTruthy : Option String → Bool
  | none => false
  | some s => s != ""

/-- The `SearchQuery` dataclass, typed per its annotations (caller-constructed
encode-side value). -/
structure SearchQuery where
  collection_id : String
  filters : Option (List SearchFilter) := none
  labels : Option (List String) := none
  tags : Option (List (String × String)) := none
  max_results : Option Int := none
  skip : Option Int := none
  ordering : Option EnumerationOrder := none
  include_content : Bool := false
deriving DecidableEq, Repr

/-- `SearchQuery.to_dict`: every field behind its source guard (truthiness for
`filters`/`labels`/`tags`/`ordering` — an `EnumerationOrder` member is always
truthy, so that guard is presence — `is not None` for `maxResults`/`skip`,
the flag itself for `includeContent`); `collection_id` is never in the body
(it travels in the URL path). -/
def SearchQuery.toDict (q : SearchQuery) : PyDict :=
  consIf (optListTruthy q.filters)
    ("filters", .list (((q.filters.getD []).map (fun f => Py.dict f.toDict))))
  (consIf (optListTruthy q.labels)
    ("labels", .list ((q.labels.getD []).map Py.str))
  (consIf (optListTruthy q.tags)
    ("tags", .dict ((q.tags.getD []).map (fun p => (p.1, Py.str p.2))))
  (consIf q.max_results.isSome ("maxResults", .int (q.max_results.getD 0))
  (consIf q.skip.isSome ("skip", .int (q.skip.getD 0))
  (consIf q.ordering.isSome
    ("ordering", .str (((q.ordering.getD .CREATED_ASCENDING)).value))
  (consIf q.include_content ("includeContent", .bool true)
  []))))))

/-- The `SearchResult` dataclass.  `documents` holds the decoded list (whose
entries are `Document` values or `None`, since `Document.from_dict` maps a
`None` element to `None`). -/
structure SearchResult where
  success : Py := .bool false
  timestamp : Py := .none
  max_results : Py := .none
  continuation_token : Py := .none
  end_of_results : Py := .bool false
  total_records : Py := .int 0
  records_remaining : Py := .int 0
  documents : List (Option Document) := []
deriving Repr

/-- The `documents` decoding step of `SearchResult.from_dict`: nothing when
the value is missing or falsy; a truthy list is mapped through
`Document.from_dict`; a truthy non-list raises (iteration/`.get` failure). -/
def searchResultDocs (v : Py) : Except Unit (List (Option Document)) :=
  if pyTruthy v then
    match v with
    | .list xs => xs.mapM Document.fromDict
    | _ => .error ()
  else .ok []

/-- The `timestamp` decoding step of `SearchResult.from_dict`: a falsy value
is left unset; a truthy dict has its `utc` entry parsed; any other truthy
value is parsed directly. -/
def searchResultTimestamp (d : PyDict) : Py :=
  let ts := pyGetD d "timestamp" .none
  if pyTruthy ts then
    match ts with
    | .dict o => parseDatetime (pyGetD o "utc" .none)
    | _ => parseDatetime ts
  else .none

/-- Dict branch of `SearchResult.from_dict`: the `documents` step is the
only part that can raise. -/
def searchResultOfDict (d : PyDict) : Except Unit SearchResult :=
  match searchResultDocs (pyGetD d "documents" .none) with
  | .error e => .error e
  | .ok docs =>
    .ok { success := pyGetD d "success" (.bool false)
          timestamp := searchResultTimestamp d
          max_results := pyGetD d "maxResults" .none
          continuation_token := pyGetD d "continuationToken" .none
          end_of_results := pyGetD d "endOfResults" (.bool false)
          total_records := pyGetD d "totalRecords" (.int 0)
          records_remaining := pyGetD d "recordsRemaining" (.int 0)
          documents := docs }

/-- `SearchResult.from_dict`. -/
def SearchResult.fromDict : Py → Except Unit (Option SearchResult)
  | .none => .ok none
  | .dict d => (searchResultOfDict d).map some
  | _ => .error ()

/-- The `IndexRebuildResult` dataclass. -/
structure IndexRebuildResult where
  collection_id : Py := .str ""
  documents_processed : Py := .int 0
  indexes_created : Py := .list []
  indexes_dropped : Py := .list []
  values_inserted : Py := .int 0
  duration : Py := .none
  duration_ms : Py := .int 0
  errors : Py := .list []
  success : Py := .bool false
deriving Repr

/-- Dict branch of `IndexRebuildResult.from_dict`. -/
def indexRebuildResultOfDict (d : PyDict) : IndexRebuildResult :=
  { collection_id := pyGetD d "collectionId" (.str "")
    documents_processed := pyGetD d "documentsProcessed" (.int 0)
    indexes_created := pyOr (pyGetD d "indexesCreated" (.list [])) (.list [])
    indexes_dropped := pyOr (pyGetD d "indexesDropped" (.list [])) (.list [])
    values_inserted := pyGetD d "valuesInserted" (.int 0)
    duration := pyGetD d "duration" .none
    duration_ms := pyGetD d "durationMs" (.int 0)
    errors := pyOr (pyGetD d "errors" (.list [])) (.list [])
    success := pyGetD d "success" (.bool false) }

/-- `IndexRebuildResult.from_dict`. -/
def IndexRebuildResult.fromDict : Py → Except Unit (Option IndexRebuildResult)
  | .none => .ok none
  | .dict d => .ok (some (indexRebuildResultOfDict d))
  | _ => .error ()

/-- The `ResponseContext` dataclass (the wire response envelope). -/
structure ResponseContext where
  success : Py := .bool false
  status_code : Py := .int 0
  error_message : Py := .none
  data : Py := .none
  headers : Py := .dict []
  processing_time_ms : Py := .int 0
  guid : Py := .none
  timestamp_utc : Py := .none
deriving Repr

/-- Dict branch of `ResponseContext.from_dict`. -/
def responseContextOfDict (d : PyDict) : ResponseContext :=
  { success := pyGetD d "success" (.bool false)
    status_code := pyGetD d "statusCode" (.int 0)
    error_message := pyGetD d "errorMessage" .none
    data := pyGetD d "data" .none
    headers := pyOr (pyGetD d "headers" (.dict [])) (.dict [])
    processing_time_ms := pyGetD d "processingTimeMs" (.int 0)
    guid := pyGetD d "guid" .none
    timestamp_utc := parseDatetime (pyGetD d "timestampUtc" .none) }

/-- `ResponseContext.from_dict`. -/
def ResponseContext.fromDict : Py → Except Unit (Option ResponseContext)
  | .none => .ok none
  | .dict d => .ok (some (responseContextOfDict d))
  | _ => .error ()

/-- The `IndexTableMapping` dataclass. -/
structure IndexTableMapping where
  key : Py := .str ""
  table_name : Py := .str ""
deriving Repr

/-- Dict branch of `IndexTableMapping.from_dict`. -/
def indexTableMappingOfDict (d : PyDict) : IndexTableMapping :=
  { key := pyGetD d "key" (.str "")
    table_name := pyGetD d "tableName" (.str "") }

/-- `IndexTableMapping.from_dict`. -/
def IndexTableMapping.fromDict : Py → Except Unit (Option IndexTableMapping)
  | .none => .ok none
  | .dict d => .ok (some (indexTableMappingOfDict d))
  | _ => .error ()

/-! ### Transport (`client.py`, `LatticeClient._request` / `health_check`)

The HTTP library (`requests`) is the SDK's external collaborator; a completed
call is modelled by `HttpResponse`, whose `json?` field is the outcome of the
library's `Response.json()` (`none` standing for a raised
`json.JSONDecodeError`), and `body` is the response text (`response.content`
is truthy exactly when `body` is non-empty).  The four ways a call can end
are the constructors of `HttpOutcome`. -/

/-- A completed HTTP response as seen through the `requests` library. -/
structure HttpResponse where
  statusCode : Nat
  body : String
  json? : Option Py
  headers : List (String × String)

/-- Outcome of attempting one HTTP call through the session. -/
inductive HttpOutcome where
  | resp (r : HttpResponse)
  | connectionRefused
  | timedOut
  | otherRequestFailure

/-- What `_request` can raise: the two `LatticeException` shapes it
constructs itself, or a plain Python fault (e.g. the `AttributeError` from
decoding a non-object JSON body) that is not a `LatticeException`. -/
inductive SdkRaise where
  | latticeConnectionFailure
  | latticeFailure
  | pyFault
deriving DecidableEq, Repr

/-- Whether a raised value is an instance of `LatticeException` (what an
`except LatticeException` clause catches). -/
def SdkRaise.isLatticeException : SdkRaise → Bool
  | .latticeConnectionFailure => true
  | .latticeFailure => true
  | .pyFault => false

/-- Python `dict(response.headers)` as a `Py` value. -/
def pyHeaders (hs : List (String × String)) : Py :=
  .dict (hs.map (fun p => (p.1, Py.str p.2)))

/-- Python `method.upper()` (method names are ASCII). -/
def strUpper (s : String) : String :=
  ⟨s.data.map Char.toUpper⟩

/-- The response-decoding tail of `_request`, given a completed response:
`HEAD` (after upper-casing the method) yields an envelope with
`success = (statusCode == 200)` and no data; otherwise a non-empty body is
JSON-decoded into `ResponseContext.from_dict` when valid, and yields
`success = (statusCode < 400)` with the raw text as data when not; an empty
body yields `success = (statusCode < 400)` with no data. -/
def handleResponse (method : String) (r : HttpResponse) : Except Unit (Option ResponseContext) :=
  if strUpper method = "HEAD" then
    .ok (some { success := .bool (r.statusCode == 200)
                status_code := .int (r.statusCode : Int)
                headers := pyHeaders r.headers })
  else if r.body ≠ "" then
    match r.json? with
    | some j => ResponseContext.fromDict j
    | none =>
      .ok (some { success := .bool (decide (r.statusCode < 400))
                  status_code := .int (r.statusCode : Int)
                  data := .str r.body
                  headers := pyHeaders r.headers })
  else
    .ok (some { success := .bool (decide (r.statusCode < 400))
                status_code := .int (r.statusCode : Int)
                headers := pyHeaders r.headers })

/-- `LatticeClient._request`: connection errors and timeouts become
`LatticeConnectionError`, other `requests` failures become
`LatticeException`, and a completed response is decoded by
`handleResponse` (whose own `AttributeError` on a non-object JSON body
escapes the `except requests...` clauses as a plain Python fault). -/
def requestStep (method : String) (o : HttpOutcome) : Except SdkRaise (Option ResponseContext) :=
  match o with
  | .resp r =>
    match handleResponse method r with
    | .ok v => .ok v
    | .error _ => .error .pyFault
  | .connectionRefused => .error .latticeConnectionFailure
  | .timedOut => .error .latticeConnectionFailure
  | .otherRequestFailure => .error .latticeFailure

/-- `LatticeClient.health_check`: issues `GET /v1.0/health`, returns
`response.success`, and catches `LatticeException` (only) into `False`.
A `None` envelope (JSON body `null`) makes `response.success` raise
`AttributeError`, which the `except LatticeException` clause does not
catch. -/
def healthCheck (o : HttpOutcome) : Except SdkRaise Py :=
  match requestStep "GET" o with
  | .ok (some ctx) => .ok ctx.success
  | .ok none => .error .pyFault
  | .error e => if e.isLatticeException then .ok (.bool false) else .error e

/-! ### Operation groups (`client.py`) -/

/-- One HTTP request as handed to the transport. -/
structure HttpRequest where
  method : String
  path : String
  body : Option PyDict
  params : Option PyDict
deriving Repr

/-- Request body built by `CollectionMethods.create`: `name` unconditionally,
then each optional argument behind its source truthiness guard, the two enum
arguments exactly when they differ from their defaults (`NONE` / `ALL`). -/
def collectionCreateBody (name : String) (description : Option String)
    (documents_directory : Option String) (labels : Option (List String))
    (tags : Option (List (String × String)))
    (schema_enforcement_mode : SchemaEnforcementMode)
    (field_constraints : Option (List FieldConstraint))
    (indexing_mode : IndexingMode) (indexed_fields : Option (List String)) : PyDict :=
  ("name", .str name) ::
  consIf (optStrTruthy description) ("description", .str (description.getD ""))
  (consIf (optStrTruthy documents_directory)
    ("documentsDirectory", .str (documents_directory.getD ""))
  (consIf (optListTruthy labels) ("labels", .list ((labels.getD []).map Py.str))
  (consIf (optListTruthy tags)
    ("tags", .dict ((tags.getD []).map (fun p => (p.1, Py.str p.2))))
  (consIf (schema_enforcement_mode ≠ SchemaEnforcementMode.NONE)
    ("schemaEnforcementMode", .str schema_enforcement_mode.value)
  (consIf (optListTruthy field_constraints)
    ("fieldConstraints",
      .list ((field_constraints.getD []).map (fun c => Py.dict c.toDict)))
  (consIf (indexing_mode ≠ IndexingMode.ALL) ("indexingMode", .str indexing_mode.value)
  (consIf (optListTruthy indexed_fields)
    ("indexedFields", .list ((indexed_fields.getD []).map Py.str))
  [])))))))

/-- The pre-transport phase of `CollectionMethods.create`: the source
performs no argument validation, so for every argument combination it
reaches the transport with `PUT /v1.0/collections` and the built body
(the `Except SdkRaise` result type records that nothing is raised here). -/
def collectionCreateRequest (name : String) (description : Option String)
    (documents_directory : Option String) (labels : Option (List String))
    (tags : Option (List (String × String)))
    (schema_enforcement_mode : SchemaEnforcementMode)
    (field_constraints : Option (List FieldConstraint))
    (indexing_mode : IndexingMode) (indexed_fields : Option (List String)) :
    Except SdkRaise HttpRequest :=
  .ok { method := "PUT"
        path := "/v1.0/collections"
        body := some (collectionCreateBody name description documents_directory labels
          tags schema_enforcement_mode field_constraints indexing_mode indexed_fields)
        params := none }

/-- The request built by `SearchMethods.search`. -/
def searchBuildRequest (q : SearchQuery) : HttpRequest :=
  { method := "POST"
    path := "/v1.0/collections/" ++ q.collection_id ++ "/documents/search"
    body := some q.toDict
    params := none }

/-- The result-conversion tail of `SearchMethods.search`: when the envelope's
`success` and `data` are both truthy the data is decoded as a `SearchResult`
(a decode `AttributeError` escaping as a Python fault), otherwise `None`; a
`None` envelope makes `response.success` raise. -/
def searchConvert (res : Except SdkRaise (Option ResponseContext)) :
    Except SdkRaise (Option SearchResult) :=
  match res with
  | .error e => .error e
  | .ok none => .error .pyFault
  | .ok (some ctx) =>
    if pyTruthy ctx.success && pyTruthy ctx.data then
      match SearchResult.fromDict ctx.data with
      | .ok r => .ok r
      | .error _ => .error .pyFault
    else .ok none

/-- `SearchMethods.search`: the built request together with the converted
result of the transport outcome for it. -/
def SearchMethods.search (q : SearchQuery) (o : HttpOutcome) :
    HttpRequest × Except SdkRaise (Option SearchResult) :=
  (searchBuildRequest q, searchConvert (requestStep "POST" o))

/-- `SearchMethods.enumerate`: the source body is `return self.search(query)`
(enumeration uses the same endpoint as search). -/
def SearchMethods.enumerate (q : SearchQuery) (o : HttpOutcome) :
    HttpRequest × Except SdkRaise (Option SearchResult) :=
  SearchMethods.search q o

/-! ### Helper lemmas -/

/-- A key absent from a dict is not found. -/
theorem pyGet?_eq_none {d : PyDict} {k : String} (h : hasKey d k = false) :
    pyGet? d k = none := by
  induction d with
  | nil => rfl
  | cons kv r ih =>
    simp only [hasKey, Bool.or_eq_false_iff] at h
    simp [pyGet?, h.1, ih h.2]

/-- `get` with a default returns the default on an absent key. -/
theorem pyGetD_of_not_hasKey {d : PyDict} {k : String} (v : Py) (h : hasKey d k = false) :
    pyGetD d k v = v := by
  simp [pyGetD, pyGet?_eq_none h]

/-- Lookup walks past a conditional entry with a different key. -/
theorem pyGet?_consIf_of_ne (b : Bool) (k : String) (v : Py) (r : PyDict) (k' : String)
    (h : (k == k') = false) : pyGet? (consIf b (k, v) r) k' = pyGet? r k' := by
  cases b <;> simp [consIf, pyGet?, h]

/-- Lookup at the key of a conditional entry. -/
theorem pyGet?_consIf_self (b : Bool) (k : String) (v : Py) (r : PyDict) :
    pyGet? (consIf b (k, v) r) k = if b then some v else pyGet? r k := by
  cases b <;> simp [consIf, pyGet?]

/-- Key membership walks past a conditional entry with a different key. -/
theorem hasKey_consIf_of_ne (b : Bool) (k : String) (v : Py) (r : PyDict) (k' : String)
    (h : (k == k') = false) : hasKey (consIf b (k, v) r) k' = hasKey r k' := by
  cases b <;> simp [consIf, hasKey, h]

/-- Key membership at the key of a conditional entry. -/
theorem hasKey_consIf_self (b : Bool) (k : String) (v : Py) (r : PyDict) :
    hasKey (consIf b (k, v) r) k = (b || hasKey r k) := by
  cases b <;> simp [consIf, hasKey]

/-! ### Claims -/

/-- C9: for every `SearchQuery` and transport outcome, `Search.enumerate`
performs exactly the computation of `Search.search`: same built request, same
converted result. -/
theorem search_enumerate_eq_search (q : SearchQuery) (o : HttpOutcome) :
    SearchMethods.enumerate q o = SearchMethods.search q o := rfl

/-- C4: a `HEAD` response yields `success = (statusCode == 200)` with absent
data; for any other method an empty body yields `success = (statusCode <
400)` with absent data, and a non-empty non-JSON body yields
`success = (statusCode < 400)` with the raw text as data. -/
theorem transport_response_envelope_shapes :
    (∀ (m : String) (r : HttpResponse), strUpper m = "HEAD" →
      handleResponse m r = .ok (some { success := .bool (r.statusCode == 200)
                                       status_code := .int (r.statusCode : Int)
                                       headers := pyHeaders r.headers })) ∧
    (∀ (m : String) (r : HttpResponse), strUpper m ≠ "HEAD" → r.body = "" →
      handleResponse m r = .ok (some { success := .bool (decide (r.statusCode < 400))
                                       status_code := .int (r.statusCode : Int)
                                       headers := pyHeaders r.headers })) ∧
    (∀ (m : String) (r : HttpResponse), strUpper m ≠ "HEAD" → r.body ≠ "" → r.json? = none →
      handleResponse m r = .ok (some { success := .bool (decide (r.statusCode < 400))
                                       status_code := .int (r.statusCode : Int)
                                       data := .str r.body
                                       headers := pyHeaders r.headers })) := by
  refine ⟨?_, ?_, ?_⟩
  · intro m r h
    simp [handleResponse, h]
  · intro m r h hb
    simp [handleResponse, h, hb]
  · intro m r h hb hj
    simp [handleResponse, h, hb, hj]

/-- Witness for the transport envelope theorem at concrete responses. -/
theorem transport_response_envelope_shapes_witness :
    handleResponse "HEAD" { statusCode := 200, body := "", json? := none, headers := [] } =
      .ok (some { success := .bool true, status_code := .int 200, headers := .dict [] }) ∧
    handleResponse "GET" { statusCode := 204, body := "", json? := none, headers := [] } =
      .ok (some { success := .bool true, status_code := .int 204, headers := .dict [] }) ∧
    handleResponse "GET" { statusCode := 502, body := "Bad Gateway", json? := none, headers := [] } =
      .ok (some { success := .bool false, status_code := .int 502
                  data := .str "Bad Gateway", headers := .dict [] }) := by
  refine ⟨?_, ?_, ?_⟩
  · exact transport_response_envelope_shapes.1 "HEAD" _ rfl
  · exact transport_response_envelope_shapes.2.1 "GET" _ (by decide) rfl
  · exact transport_response_envelope_shapes.2.2 "GET" _ (by decide) (by decide) rfl

/-- C10: the `Collections.create` body always carries `name`, carries
`schemaEnforcementMode` exactly when the argument differs from `NONE`, and
carries `indexingMode` exactly when the argument differs from `ALL`. -/
theorem create_body_enum_omission (name : String) (description : Option String)
    (documents_directory : Option String) (labels : Option (List String))
    (tags : Option (List (String × String)))
    (schema_enforcement_mode : SchemaEnforcementMode)
    (field_constraints : Option (List FieldConstraint))
    (indexing_mode : IndexingMode) (indexed_fields : Option (List String)) :
    hasKey (collectionCreateBody name description documents_directory labels tags
      schema_enforcement_mode field_constraints indexing_mode indexed_fields) "name" = true ∧
    (hasKey (collectionCreateBody name description documents_directory labels tags
      schema_enforcement_mode field_constraints indexing_mode indexed_fields)
        "schemaEnforcementMode" = true ↔ schema_enforcement_mode ≠ .NONE) ∧
    (hasKey (collectionCreateBody name description documents_directory labels tags
      schema_enforcement_mode field_constraints indexing_mode indexed_fields)
        "indexingMode" = true ↔ indexing_mode ≠ .ALL) := by
  refine ⟨?_, ?_, ?_⟩ <;>
    simp [collectionCreateBody, hasKey, hasKey_consIf_of_ne, hasKey_consIf_self]

/-- C5 counterexample: calling `Collections.create` with the structurally
invalid empty name raises nothing — the pre-transport phase completes and
hands the transport a `PUT /v1.0/collections` request whose body carries the
empty name, so a request does reach the transport and no
`LatticeValidationError` is raised. -/
theorem create_empty_name_not_validated :
    collectionCreateRequest "" none none none none .NONE none .ALL none =
      .ok { method := "PUT", path := "/v1.0/collections"
            body := some [("name", Py.str "")], params := none } := rfl

/-- C5 amended: `Collections.create` performs no client-side argument
validation at all — for every argument combination (an empty required name
included) the pre-transport phase raises nothing and produces the
`PUT /v1.0/collections` request whose body carries the given name. -/
theorem create_never_validates (name : String) (description : Option String)
    (documents_directory : Option String) (labels : Option (List String))
    (tags : Option (List (String × String)))
    (schema_enforcement_mode : SchemaEnforcementMode)
    (field_constraints : Option (List FieldConstraint))
    (indexing_mode : IndexingMode) (indexed_fields : Option (List String)) :
    collectionCreateRequest name description documents_directory labels tags
      schema_enforcement_mode field_constraints indexing_mode indexed_fields =
      .ok { method := "PUT", path := "/v1.0/collections"
            body := some (collectionCreateBody name description documents_directory labels
              tags schema_enforcement_mode field_constraints indexing_mode indexed_fields)
            params := none } ∧
    pyGet? (collectionCreateBody name description documents_directory labels tags
      schema_enforcement_mode field_constraints indexing_mode indexed_fields) "name" =
      some (.str name) := by
  exact ⟨rfl, rfl⟩

/-- C7 counterexample: a filter with condition `IsNull` that carries a value
encodes the `value` field (the claim requires it omitted for `IsNull`
regardless of the carried value). -/
theorem isnull_filter_value_not_omitted :
    SearchFilter.toDict { field := "f", condition := .IS_NULL, value := some "x" } =
      [("field", Py.str "f"), ("condition", Py.str "IsNull"), ("value", Py.str "x")] ∧
    hasKey (SearchFilter.toDict { field := "f", condition := .IS_NULL, value := some "x" })
      "value" = true := ⟨rfl, rfl⟩

/-- C7 amended: `SearchFilter.to_dict` always emits `field` and `condition`,
and emits `value` exactly when the filter's value is present (`is not None`),
independently of the condition — so the `IsNull`/`IsNotNull` omission only
happens when such a filter is built without a value. -/
theorem filter_value_omitted_iff_none (f : SearchFilter) :
    hasKey f.toDict "field" = true ∧
    hasKey f.toDict "condition" = true ∧
    (hasKey f.toDict "value" = true ↔ f.value.isSome = true) := by
  refine ⟨rfl, rfl, ?_⟩
  simp [SearchFilter.toDict, hasKey, hasKey_consIf_of_ne, hasKey_consIf_self]

/-- C6 counterexample: a completed health response whose body is the JSON
text `null` decodes to an absent envelope, and `health_check` then raises an
uncaught `AttributeError` (`None.success`) — an outcome of the underlying
HTTP call on which `health_check` does raise. -/
theorem health_check_raises_on_null_envelope :
    healthCheck (.resp { statusCode := 200, body := "null", json? := some Py.none,
                         headers := [] }) = .error .pyFault := rfl

/-- C6 amended: `health_check` converts every `LatticeException` raised by
the transport — connection refusal and timeout included — to the return
value `False`, and when the transport yields an envelope it returns that
envelope's `success` value; the exceptions are responses whose non-empty
body is valid JSON but not a JSON object (`null`, a list, a number, a
boolean or a string): `null` decodes to an absent envelope and
`None.success` raises an `AttributeError`, and any other non-object makes
`ResponseContext.from_dict`'s `.get` raise one — neither is caught by the
`except LatticeException` clause. -/
theorem health_check_catches_lattice_errors :
    healthCheck .connectionRefused = .ok (.bool false) ∧
    healthCheck .timedOut = .ok (.bool false) ∧
    healthCheck .otherRequestFailure = .ok (.bool false) ∧
    (∀ (o : HttpOutcome) (e : SdkRaise), requestStep "GET" o = .error e →
      e.isLatticeException = true → healthCheck o = .ok (.bool false)) ∧
    (∀ (o : HttpOutcome) (ctx : ResponseContext),
      requestStep "GET" o = .ok (some ctx) → healthCheck o = .ok ctx.success) ∧
    (∀ o : HttpOutcome, requestStep "GET" o = .ok none →
      healthCheck o = .error .pyFault) ∧
    (∀ (r : HttpResponse) (j : Py), r.body ≠ "" → r.json? = some j →
      (∀ o : List (String × Py), j ≠ Py.dict o) →
      healthCheck (.resp r) = .error .pyFault) := by
  have hm : strUpper "GET" ≠ "HEAD" := by decide
  refine ⟨rfl, rfl, rfl, ?_, ?_, ?_, ?_⟩
  · intro o e he hl
    simp [healthCheck, he, hl]
  · intro o ctx h
    simp [healthCheck, h]
  · intro o h
    simp [healthCheck, h]
  · intro r j hb hj hnd
    cases j <;>
      first
      | exact absurd rfl (hnd _)
      | simp [healthCheck, requestStep, handleResponse, ResponseContext.fromDict,
          hm, hb, hj, SdkRaise.isLatticeException]

/-- Witness for the amended health-check theorem: a 200 envelope reporting
success makes `health_check` return `True`, and a 200 response whose JSON
body is the array `[]` makes it raise. -/
theorem health_check_catches_lattice_errors_witness :
    healthCheck (.resp { statusCode := 200, body := "\x7b\"success\": true\x7d"
                         json? := some (Py.dict [("success", Py.bool true)])
                         headers := [] }) =
      .ok (responseContextOfDict [("success", Py.bool true)]).success ∧
    healthCheck (.resp { statusCode := 200, body := "[]", json? := some (Py.list [])
                         headers := [] }) = .error .pyFault := by
  constructor
  · exact health_check_catches_lattice_errors.2.2.2.2.1 _ _ rfl
  · exact health_check_catches_lattice_errors.2.2.2.2.2.2 _ (Py.list [])
      (by decide) rfl (fun o h => by simp at h)

/-! Per-field lookup lemmas for `FieldConstraint.toDict`, used by the
round-trip theorem: each key is resolved against the guarded entry chain. -/

/-- The encoder always emits `fieldPath` first. -/
theorem fc_get_fieldPath (x : FieldConstraint) :
    pyGetD x.toDict "fieldPath" (.str "") = x.field_path := rfl

/-- `id` is never emitted. -/
theorem fc_get_id (x : FieldConstraint) : pyGetD x.toDict "id" (.str "") = .str "" := by
  simp [FieldConstraint.toDict, pyGetD, pyGet?, pyGet?_consIf_of_ne]

/-- `collectionId` is never emitted. -/
theorem fc_get_collectionId (x : FieldConstraint) :
    pyGetD x.toDict "collectionId" (.str "") = .str "" := by
  simp [FieldConstraint.toDict, pyGetD, pyGet?, pyGet?_consIf_of_ne]

/-- `createdUtc` is never emitted. -/
theorem fc_get_createdUtc (x : FieldConstraint) :
    pyGetD x.toDict "createdUtc" .none = .none := by
  simp [FieldConstraint.toDict, pyGetD, pyGet?, pyGet?_consIf_of_ne]

/-- `lastUpdateUtc` is never emitted. -/
theorem fc_get_lastUpdateUtc (x : FieldConstraint) :
    pyGetD x.toDict "lastUpdateUtc" .none = .none := by
  simp [FieldConstraint.toDict, pyGetD, pyGet?, pyGet?_consIf_of_ne]

/-- `dataType` is found exactly when truthy. -/
theorem fc_get_dataType (x : FieldConstraint) :
    pyGetD x.toDict "dataType" .none = if pyTruthy x.data_type then x.data_type else .none := by
  cases h : pyTruthy x.data_type <;>
    simp [FieldConstraint.toDict, pyGetD, pyGet?, pyGet?_consIf_of_ne, pyGet?_consIf_self, h]

/-- `required` is found exactly when truthy. -/
theorem fc_get_required (x : FieldConstraint) :
    pyGetD x.toDict "required" (.bool false) =
      if pyTruthy x.required then x.required else .bool false := by
  cases h : pyTruthy x.required <;>
    simp [FieldConstraint.toDict, pyGetD, pyGet?, pyGet?_consIf_of_ne, pyGet?_consIf_self, h]

/-- `nullable` is found exactly when falsy. -/
theorem fc_get_nullable (x : FieldConstraint) :
    pyGetD x.toDict "nullable" (.bool true) =
      if pyTruthy x.nullable then .bool true else x.nullable := by
  cases h : pyTruthy x.nullable <;>
    simp [FieldConstraint.toDict, pyGetD, pyGet?, pyGet?_consIf_of_ne, pyGet?_consIf_self, h]

/-- `regexPattern` is found exactly when truthy. -/
theorem fc_get_regexPattern (x : FieldConstraint) :
    pyGetD x.toDict "regexPattern" .none =
      if pyTruthy x.regex_pattern then x.regex_pattern else .none := by
  cases h : pyTruthy x.regex_pattern <;>
    simp [FieldConstraint.toDict, pyGetD, pyGet?, pyGet?_consIf_of_ne, pyGet?_consIf_self, h]

/-- A value is `None` when not `is not None`. -/
theorem eq_none_of_not_isNotNone {v : Py} (h : isNotNone v = false) : v = .none := by
  cases v <;> simp [isNotNone] at h ⊢

/-- `minValue` decodes back to the encoded field whether or not emitted. -/
theorem fc_get_minValue (x : FieldConstraint) :
    pyGetD x.toDict "minValue" .none = x.min_value := by
  cases h : isNotNone x.min_value
  · have h0 := eq_none_of_not_isNotNone h
    simp [FieldConstraint.toDict, pyGetD, pyGet?, pyGet?_consIf_of_ne, pyGet?_consIf_self, h0,
      isNotNone]
  · simp [FieldConstraint.toDict, pyGetD, pyGet?, pyGet?_consIf_of_ne, pyGet?_consIf_self, h]

/-- `maxValue` decodes back to the encoded field whether or not emitted. -/
theorem fc_get_maxValue (x : FieldConstraint) :
    pyGetD x.toDict "maxValue" .none = x.max_value := by
  cases h : isNotNone x.max_value
  · have h0 := eq_none_of_not_isNotNone h
    simp [FieldConstraint.toDict, pyGetD, pyGet?, pyGet?_consIf_of_ne, pyGet?_consIf_self, h0,
      isNotNone]
  · simp [FieldConstraint.toDict, pyGetD, pyGet?, pyGet?_consIf_of_ne, pyGet?_consIf_self, h]

/-- `minLength` decodes back to the encoded field whether or not emitted. -/
theorem fc_get_minLength (x : FieldConstraint) :
    pyGetD x.toDict "minLength" .none = x.min_length := by
  cases h : isNotNone x.min_length
  · have h0 := eq_none_of_not_isNotNone h
    simp [FieldConstraint.toDict, pyGetD, pyGet?, pyGet?_consIf_of_ne, pyGet?_consIf_self, h0,
      isNotNone]
  · simp [FieldConstraint.toDict, pyGetD, pyGet?, pyGet?_consIf_of_ne, pyGet?_consIf_self, h]

/-- `maxLength` decodes back to the encoded field whether or not emitted. -/
theorem fc_get_maxLength (x : FieldConstraint) :
    pyGetD x.toDict "maxLength" .none = x.max_length := by
  cases h : isNotNone x.max_length
  · have h0 := eq_none_of_not_isNotNone h
    simp [FieldConstraint.toDict, pyGetD, pyGet?, pyGet?_consIf_of_ne, pyGet?_consIf_self, h0,
      isNotNone]
  · simp [FieldConstraint.toDict, pyGetD, pyGet?, pyGet?_consIf_of_ne, pyGet?_consIf_self, h]

/-- `allowedValues` is found exactly when truthy. -/
theorem fc_get_allowedValues (x : FieldConstraint) :
    pyGetD x.toDict "allowedValues" .none =
      if pyTruthy x.allowed_values then x.allowed_values else .none := by
  cases h : pyTruthy x.allowed_values <;>
    simp [FieldConstraint.toDict, pyGetD, pyGet?, pyGet?_consIf_of_ne, pyGet?_consIf_self, h]

/-- `arrayElementType` is found exactly when truthy. -/
theorem fc_get_arrayElementType (x : FieldConstraint) :
    pyGetD x.toDict "arrayElementType" .none =
      if pyTruthy x.array_element_type then x.array_element_type else .none := by
  cases h : pyTruthy x.array_element_type <;>
    simp [FieldConstraint.toDict, pyGetD, pyGet?, pyGet?_consIf_of_ne, pyGet?_consIf_self, h]

/-- C3: decoding the encoding of a `FieldConstraint` reproduces every field
the encoder emitted (same value) and gives every omitted field the type\'s
dataclass default: `fieldPath` always returns, truthiness-guarded fields
return themselves when emitted and `None`/`False`/`True` defaults when
omitted, `is-not-None`-guarded numeric bounds always return themselves, and
the never-emitted `id`/`collectionId`/timestamps return their defaults. -/
theorem fieldconstraint_decode_encode_roundtrip (x : FieldConstraint) :
    FieldConstraint.fromDict (.dict x.toDict) = .ok (some
      { id := .str "", collection_id := .str ""
        field_path := x.field_path
        data_type := if pyTruthy x.data_type then x.data_type else .none
        required := if pyTruthy x.required then x.required else .bool false
        nullable := if pyTruthy x.nullable then .bool true else x.nullable
        regex_pattern := if pyTruthy x.regex_pattern then x.regex_pattern else .none
        min_value := x.min_value
        max_value := x.max_value
        min_length := x.min_length
        max_length := x.max_length
        allowed_values := if pyTruthy x.allowed_values then x.allowed_values else .none
        array_element_type := if pyTruthy x.array_element_type then x.array_element_type else .none
        created_utc := .none, last_update_utc := .none }) := by
  simp only [FieldConstraint.fromDict, fieldConstraintOfDict, Except.ok.injEq, Option.some.injEq,
    FieldConstraint.mk.injEq]
  refine ⟨fc_get_id x, fc_get_collectionId x, fc_get_fieldPath x, fc_get_dataType x,
    fc_get_required x, fc_get_nullable x, fc_get_regexPattern x, fc_get_minValue x,
    fc_get_maxValue x, fc_get_minLength x, fc_get_maxLength x, fc_get_allowedValues x,
    fc_get_arrayElementType x, ?_, ?_⟩ <;>
    simp [fc_get_createdUtc, fc_get_lastUpdateUtc, parseDatetime]

/-- Key membership through a conditional entry, as one equation. -/
theorem hasKey_consIf (b : Bool) (k0 : String) (v : Py) (r : PyDict) (k : String) :
    hasKey (consIf b (k0, v) r) k = (((k0 == k) && b) || hasKey r k) := by
  cases b <;> simp [consIf, hasKey]

/-- C2 counterexample: the all-defaults `FieldConstraint` (so `field_path` is
the empty string, its "not set" default) still encodes `fieldPath`, with an
explicitly empty value — the encoder does not omit that field when it equals
its default. -/
theorem fieldpath_emitted_when_empty :
    FieldConstraint.toDict {} = [("fieldPath", Py.str "")] ∧
    hasKey (FieldConstraint.toDict {}) "fieldPath" = true ∧
    pyTruthy (Py.str "") = false := ⟨rfl, rfl, rfl⟩

/-- C2 amended: the exact omission rule of the two encoders.  For
`FieldConstraint`: `fieldPath` is always present (even when empty);
`dataType`, `regexPattern`, `allowedValues`, `arrayElementType` and
`required` are present exactly when truthy; `nullable` is present exactly
when falsy (its "not set" default being `True`); the numeric bounds are
present exactly when not `None`; `id`, `collectionId` and the timestamps
are never in the body.  For `SearchQuery`: `filters`/`labels`/`tags` are
present exactly when truthy, `maxResults`/`skip`/`ordering` exactly when
present, `includeContent` exactly when `True`; `collection_id` is never in
the body (it travels in the URL path). -/
theorem encode_omits_exactly_unset_fields :
    (∀ (c : FieldConstraint) (k : String),
      hasKey c.toDict k = true ↔
        ("fieldPath" = k ∨
         ("dataType" = k ∧ pyTruthy c.data_type = true) ∨
         ("required" = k ∧ pyTruthy c.required = true) ∨
         ("nullable" = k ∧ pyTruthy c.nullable = false) ∨
         ("regexPattern" = k ∧ pyTruthy c.regex_pattern = true) ∨
         ("minValue" = k ∧ isNotNone c.min_value = true) ∨
         ("maxValue" = k ∧ isNotNone c.max_value = true) ∨
         ("minLength" = k ∧ isNotNone c.min_length = true) ∨
         ("maxLength" = k ∧ isNotNone c.max_length = true) ∨
         ("allowedValues" = k ∧ pyTruthy c.allowed_values = true) ∨
         ("arrayElementType" = k ∧ pyTruthy c.array_element_type = true))) ∧
    (∀ (q : SearchQuery) (k : String),
      hasKey q.toDict k = true ↔
        (("filters" = k ∧ optListTruthy q.filters = true) ∨
         ("labels" = k ∧ optListTruthy q.labels = true) ∨
         ("tags" = k ∧ optListTruthy q.tags = true) ∨
         ("maxResults" = k ∧ q.max_results.isSome = true) ∨
         ("skip" = k ∧ q.skip.isSome = true) ∨
         ("ordering" = k ∧ q.ordering.isSome = true) ∨
         ("includeContent" = k ∧ q.include_content = true))) := by
  constructor
  · intro c k
    simp [FieldConstraint.toDict, hasKey, hasKey_consIf, Bool.or_eq_true, Bool.and_eq_true,
      Bool.not_eq_true']
  · intro q k
    simp [SearchQuery.toDict, hasKey, hasKey_consIf, Bool.or_eq_true, Bool.and_eq_true]

/-- The wire default string of the enforcement mode parses to `NONE`. -/
theorem parseSEM_none_default : parseSchemaEnforcementMode (.str "None") = .NONE := by decide

/-- The wire default string of the indexing mode parses to `ALL`. -/
theorem parseIM_all_default : parseIndexingMode (.str "All") = .ALL := by decide

/-- C1 counterexample: `FieldConstraint.from_dict` of the empty wire object
gives the missing boolean field `nullable` the value `True`, not the `False`
the claim assigns to missing booleans. -/
theorem missing_nullable_decodes_to_true :
    FieldConstraint.fromDict (Py.dict []) = .ok (some {}) ∧
    (fieldConstraintOfDict []).nullable = Py.bool true ∧
    Py.bool true ≠ Py.bool false :=
  ⟨rfl, rfl, fun h => by simp at h⟩

/-- C1 amended: for every entity type, decoding a wire object missing any
subset of its fields never raises and gives each missing field its
documented dataclass default: empty string for string ids/names/keys, empty
list for label/document/index/error lists, empty map for tags/headers,
`False` for booleans except `FieldConstraint.nullable` whose documented
default is `True`, `0` for counts/positions/sizes, unset (`None`) for
optional fields, and the documented enum defaults (`None` enforcement,
`All` indexing) for the enum fields. -/
theorem decode_missing_fields_use_documented_defaults :
    (∀ d : PyDict,
      (hasKey d "id" = false → (collectionOfDict d).id = .str "") ∧
      (hasKey d "name" = false → (collectionOfDict d).name = .str "") ∧
      (hasKey d "description" = false → (collectionOfDict d).description = .none) ∧
      (hasKey d "documentsDirectory" = false → (collectionOfDict d).documents_directory = .none) ∧
      (hasKey d "labels" = false → (collectionOfDict d).labels = .list []) ∧
      (hasKey d "tags" = false → (collectionOfDict d).tags = .dict []) ∧
      (hasKey d "createdUtc" = false → (collectionOfDict d).created_utc = .none) ∧
      (hasKey d "lastUpdateUtc" = false → (collectionOfDict d).last_update_utc = .none) ∧
      (hasKey d "schemaEnforcementMode" = false → (collectionOfDict d).schema_enforcement_mode = SchemaEnforcementMode.NONE) ∧
      (hasKey d "indexingMode" = false → (collectionOfDict d).indexing_mode = IndexingMode.ALL)) ∧
    (∀ d : PyDict,
      (hasKey d "id" = false → (documentOfDict d).id = .str "") ∧
      (hasKey d "collectionId" = false → (documentOfDict d).collection_id = .str "") ∧
      (hasKey d "schemaId" = false → (documentOfDict d).schema_id = .str "") ∧
      (hasKey d "name" = false → (documentOfDict d).name = .none) ∧
      (hasKey d "labels" = false → (documentOfDict d).labels = .list []) ∧
      (hasKey d "tags" = false → (documentOfDict d).tags = .dict []) ∧
      (hasKey d "createdUtc" = false → (documentOfDict d).created_utc = .none) ∧
      (hasKey d "lastUpdateUtc" = false → (documentOfDict d).last_update_utc = .none) ∧
      (hasKey d "content" = false → (documentOfDict d).content = .none) ∧
      (hasKey d "contentLength" = false → (documentOfDict d).content_length = .int 0) ∧
      (hasKey d "sha256Hash" = false → (documentOfDict d).sha256_hash = .none)) ∧
    (∀ d : PyDict,
      (hasKey d "id" = false → (schemaOfDict d).id = .str "") ∧
      (hasKey d "name" = false → (schemaOfDict d).name = .none) ∧
      (hasKey d "hash" = false → (schemaOfDict d).hash = .none) ∧
      (hasKey d "createdUtc" = false → (schemaOfDict d).created_utc = .none) ∧
      (hasKey d "lastUpdateUtc" = false → (schemaOfDict d).last_update_utc = .none)) ∧
    (∀ d : PyDict,
      (hasKey d "id" = false → (schemaElementOfDict d).id = .str "") ∧
      (hasKey d "schemaId" = false → (schemaElementOfDict d).schema_id = .str "") ∧
      (hasKey d "position" = false → (schemaElementOfDict d).position = .int 0) ∧
      (hasKey d "key" = false → (schemaElementOfDict d).key = .str "") ∧
      (hasKey d "dataType" = false → (schemaElementOfDict d).data_type = .str "") ∧
      (hasKey d "nullable" = false → (schemaElementOfDict d).nullable = .bool false) ∧
      (hasKey d "createdUtc" = false → (schemaElementOfDict d).created_utc = .none) ∧
      (hasKey d "lastUpdateUtc" = false → (schemaElementOfDict d).last_update_utc = .none)) ∧
    (∀ d : PyDict,
      (hasKey d "id" = false → (fieldConstraintOfDict d).id = .str "") ∧
      (hasKey d "collectionId" = false → (fieldConstraintOfDict d).collection_id = .str "") ∧
      (hasKey d "fieldPath" = false → (fieldConstraintOfDict d).field_path = .str "") ∧
      (hasKey d "dataType" = false → (fieldConstraintOfDict d).data_type = .none) ∧
      (hasKey d "required" = false → (fieldConstraintOfDict d).required = .bool false) ∧
      (hasKey d "nullable" = false → (fieldConstraintOfDict d).nullable = .bool true) ∧
      (hasKey d "regexPattern" = false → (fieldConstraintOfDict d).regex_pattern = .none) ∧
      (hasKey d "minValue" = false → (fieldConstraintOfDict d).min_value = .none) ∧
      (hasKey d "maxValue" = false → (fieldConstraintOfDict d).max_value = .none) ∧
      (hasKey d "minLength" = false → (fieldConstraintOfDict d).min_length = .none) ∧
      (hasKey d "maxLength" = false → (fieldConstraintOfDict d).max_length = .none) ∧
      (hasKey d "allowedValues" = false → (fieldConstraintOfDict d).allowed_values = .none) ∧
      (hasKey d "arrayElementType" = false → (fieldConstraintOfDict d).array_element_type = .none) ∧
      (hasKey d "createdUtc" = false → (fieldConstraintOfDict d).created_utc = .none) ∧
      (hasKey d "lastUpdateUtc" = false → (fieldConstraintOfDict d).last_update_utc = .none)) ∧
    (∀ d : PyDict,
      (hasKey d "id" = false → (indexedFieldOfDict d).id = .str "") ∧
      (hasKey d "collectionId" = false → (indexedFieldOfDict d).collection_id = .str "") ∧
      (hasKey d "fieldPath" = false → (indexedFieldOfDict d).field_path = .str "") ∧
      (hasKey d "createdUtc" = false → (indexedFieldOfDict d).created_utc = .none) ∧
      (hasKey d "lastUpdateUtc" = false → (indexedFieldOfDict d).last_update_utc = .none)) ∧
    (∀ d : PyDict,
      (hasKey d "collectionId" = false → (indexRebuildResultOfDict d).collection_id = .str "") ∧
      (hasKey d "documentsProcessed" = false → (indexRebuildResultOfDict d).documents_processed = .int 0) ∧
      (hasKey d "indexesCreated" = false → (indexRebuildResultOfDict d).indexes_created = .list []) ∧
      (hasKey d "indexesDropped" = false → (indexRebuildResultOfDict d).indexes_dropped = .list []) ∧
      (hasKey d "valuesInserted" = false → (indexRebuildResultOfDict d).values_inserted = .int 0) ∧
      (hasKey d "duration" = false → (indexRebuildResultOfDict d).duration = .none) ∧
      (hasKey d "durationMs" = false → (indexRebuildResultOfDict d).duration_ms = .int 0) ∧
      (hasKey d "errors" = false → (indexRebuildResultOfDict d).errors = .list []) ∧
      (hasKey d "success" = false → (indexRebuildResultOfDict d).success = .bool false)) ∧
    (∀ d : PyDict,
      (hasKey d "success" = false → (responseContextOfDict d).success = .bool false) ∧
      (hasKey d "statusCode" = false → (responseContextOfDict d).status_code = .int 0) ∧
      (hasKey d "errorMessage" = false → (responseContextOfDict d).error_message = .none) ∧
      (hasKey d "data" = false → (responseContextOfDict d).data = .none) ∧
      (hasKey d "headers" = false → (responseContextOfDict d).headers = .dict []) ∧
      (hasKey d "processingTimeMs" = false → (responseContextOfDict d).processing_time_ms = .int 0) ∧
      (hasKey d "guid" = false → (responseContextOfDict d).guid = .none) ∧
      (hasKey d "timestampUtc" = false → (responseContextOfDict d).timestamp_utc = .none)) ∧
    (∀ d : PyDict,
      (hasKey d "key" = false → (indexTableMappingOfDict d).key = .str "") ∧
      (hasKey d "tableName" = false → (indexTableMappingOfDict d).table_name = .str "")) ∧
    (∀ d : PyDict,
      (hasKey d "success" = false → ∀ r, searchResultOfDict d = .ok r → r.success = .bool false) ∧
      (hasKey d "timestamp" = false → ∀ r, searchResultOfDict d = .ok r → r.timestamp = .none) ∧
      (hasKey d "maxResults" = false → ∀ r, searchResultOfDict d = .ok r → r.max_results = .none) ∧
      (hasKey d "continuationToken" = false → ∀ r, searchResultOfDict d = .ok r → r.continuation_token = .none) ∧
      (hasKey d "endOfResults" = false → ∀ r, searchResultOfDict d = .ok r → r.end_of_results = .bool false) ∧
      (hasKey d "totalRecords" = false → ∀ r, searchResultOfDict d = .ok r → r.total_records = .int 0) ∧
      (hasKey d "recordsRemaining" = false → ∀ r, searchResultOfDict d = .ok r → r.records_remaining = .int 0) ∧
      (hasKey d "documents" = false →
        searchResultOfDict d = .ok
          { success := pyGetD d "success" (.bool false)
            timestamp := searchResultTimestamp d
            max_results := pyGetD d "maxResults" .none
            continuation_token := pyGetD d "continuationToken" .none
            end_of_results := pyGetD d "endOfResults" (.bool false)
            total_records := pyGetD d "totalRecords" (.int 0)
            records_remaining := pyGetD d "recordsRemaining" (.int 0)
            documents := [] })) := by
  have hsr : (∀ d : PyDict,
      (hasKey d "success" = false → ∀ r, searchResultOfDict d = .ok r →
        r.success = .bool false) ∧
      (hasKey d "timestamp" = false → ∀ r, searchResultOfDict d = .ok r →
        r.timestamp = .none) ∧
      (hasKey d "maxResults" = false → ∀ r, searchResultOfDict d = .ok r →
        r.max_results = .none) ∧
      (hasKey d "continuationToken" = false → ∀ r, searchResultOfDict d = .ok r →
        r.continuation_token = .none) ∧
      (hasKey d "endOfResults" = false → ∀ r, searchResultOfDict d = .ok r →
        r.end_of_results = .bool false) ∧
      (hasKey d "totalRecords" = false → ∀ r, searchResultOfDict d = .ok r →
        r.total_records = .int 0) ∧
      (hasKey d "recordsRemaining" = false → ∀ r, searchResultOfDict d = .ok r →
        r.records_remaining = .int 0) ∧
      (hasKey d "documents" = false →
        searchResultOfDict d = .ok
          { success := pyGetD d "success" (.bool false)
            timestamp := searchResultTimestamp d
            max_results := pyGetD d "maxResults" .none
            continuation_token := pyGetD d "continuationToken" .none
            end_of_results := pyGetD d "endOfResults" (.bool false)
            total_records := pyGetD d "totalRecords" (.int 0)
            records_remaining := pyGetD d "recordsRemaining" (.int 0)
            documents := [] })) := by
    intro d
    refine ⟨?f1, ?f2, ?f3, ?f4, ?f5, ?f6, ?f7, ?f8⟩
    case f8 =>
      intro h
      simp [searchResultOfDict, searchResultDocs, pyGetD_of_not_hasKey _ h, pyTruthy]
    all_goals
      intro h r hr
      simp only [searchResultOfDict] at hr
      rcases hdocs : searchResultDocs (pyGetD d "documents" Py.none) with e | docs <;>
        rw [hdocs] at hr
      · exact absurd hr (by simp)
      · injection hr with h2
        subst h2
        simp [pyGetD_of_not_hasKey _ h, searchResultTimestamp, pyTruthy]
  refine ⟨?_, ?_, ?_, ?_, ?_, ?_, ?_, ?_, ?_, hsr⟩ <;> intro d <;> repeat' constructor
  all_goals
    intro h
  all_goals
    simp [collectionOfDict, documentOfDict, schemaOfDict, schemaElementOfDict,
      fieldConstraintOfDict, indexedFieldOfDict, indexRebuildResultOfDict,
      responseContextOfDict, indexTableMappingOfDict,
      pyGetD_of_not_hasKey _ h, parseDatetime, pyOr, pyTruthy,
      parseSEM_none_default, parseIM_all_default]

/-- Witness for the missing-field-defaults theorem at concrete wire
objects: an object with only `name` decodes with the default empty `id`, and
an object with only `fieldPath` decodes with `nullable = True`. -/
theorem decode_missing_fields_use_documented_defaults_witness :
    (collectionOfDict [("name", Py.str "x")]).id = Py.str "" ∧
    (fieldConstraintOfDict [("fieldPath", Py.str "p")]).nullable = Py.bool true :=
  ⟨(decode_missing_fields_use_documented_defaults.1 [("name", Py.str "x")]).1 rfl,
   (decode_missing_fields_use_documented_defaults.2.2.2.2.1
     [("fieldPath", Py.str "p")]).2.2.2.2.2.1 rfl⟩

/-- C8 counterexample: an envelope-style timestamp object with a UTC
sub-field is not accepted by `Collection.from_dict` — it decodes to unset,
while the same timestamp as a bare ISO-8601 string decodes to the datetime
(only `SearchResult`'s `timestamp` handles the envelope shape). -/
theorem collection_timestamp_envelope_not_accepted :
    (collectionOfDict
      [("createdUtc", Py.dict [("utc", Py.str "2024-01-15T10:30:00")])]).created_utc =
      Py.none ∧
    (collectionOfDict [("createdUtc", Py.str "2024-01-15T10:30:00")]).created_utc =
      Py.dt { year := 2024, month := 1, day := 15, hour := 10, minute := 30 } ∧
    Py.none ≠ Py.dt { year := 2024, month := 1, day := 15, hour := 10, minute := 30 } :=
  ⟨rfl, rfl, fun h => by simp at h⟩

/-- C8 amended: timestamp decoding never raises; absent (`None`) and
non-string malformed values (booleans, numbers, lists, dicts) decode to
unset; a string is `Z`-stripped and parsed as ISO-8601, decoding to unset
when unparseable; every entity timestamp field — `Collection`, `Document`,
`Schema`, `SchemaElement`, `FieldConstraint`, `IndexedField` and
`ResponseContext` — passes the wire value to `_parse_datetime` directly, so
only `SearchResult.timestamp` additionally accepts an envelope-style object,
whose (truthy) dict has its `utc` sub-field parsed, while a falsy (empty)
envelope is left unset. -/
theorem timestamp_decode_characterization :
    (parseDatetime .none = .none) ∧
    (∀ t, parseDatetime (.dt t) = .dt t) ∧
    (∀ b, parseDatetime (.bool b) = .none) ∧
    (∀ n, parseDatetime (.int n) = .none) ∧
    (∀ xs, parseDatetime (.list xs) = .none) ∧
    (∀ o, parseDatetime (.dict o) = .none) ∧
    (∀ s, parseDatetime (.str s) = (match fromisoformat? (stripTrailingZ s) with
      | some t => .dt t
      | none => .none)) ∧
    (∀ d : PyDict,
      (collectionOfDict d).created_utc = parseDatetime (pyGetD d "createdUtc" .none) ∧
      (collectionOfDict d).last_update_utc = parseDatetime (pyGetD d "lastUpdateUtc" .none)) ∧
    (∀ d : PyDict,
      (documentOfDict d).created_utc = parseDatetime (pyGetD d "createdUtc" .none) ∧
      (documentOfDict d).last_update_utc = parseDatetime (pyGetD d "lastUpdateUtc" .none)) ∧
    (∀ d : PyDict,
      (schemaOfDict d).created_utc = parseDatetime (pyGetD d "createdUtc" .none) ∧
      (schemaOfDict d).last_update_utc = parseDatetime (pyGetD d "lastUpdateUtc" .none)) ∧
    (∀ d : PyDict,
      (schemaElementOfDict d).created_utc = parseDatetime (pyGetD d "createdUtc" .none) ∧
      (schemaElementOfDict d).last_update_utc =
        parseDatetime (pyGetD d "lastUpdateUtc" .none)) ∧
    (∀ d : PyDict,
      (fieldConstraintOfDict d).created_utc = parseDatetime (pyGetD d "createdUtc" .none) ∧
      (fieldConstraintOfDict d).last_update_utc =
        parseDatetime (pyGetD d "lastUpdateUtc" .none)) ∧
    (∀ d : PyDict,
      (indexedFieldOfDict d).created_utc = parseDatetime (pyGetD d "createdUtc" .none) ∧
      (indexedFieldOfDict d).last_update_utc =
        parseDatetime (pyGetD d "lastUpdateUtc" .none)) ∧
    (∀ d : PyDict,
      (responseContextOfDict d).timestamp_utc =
        parseDatetime (pyGetD d "timestampUtc" .none)) ∧
    (∀ (d : PyDict) (a : String × Py) (rest : PyDict),
      pyGet? d "timestamp" = some (.dict (a :: rest)) →
      searchResultTimestamp d = parseDatetime (pyGetD (a :: rest) "utc" .none)) ∧
    (∀ (d : PyDict) (s : String), s ≠ "" → pyGet? d "timestamp" = some (.str s) →
      searchResultTimestamp d = parseDatetime (.str s)) ∧
    (∀ d : PyDict, pyGet? d "timestamp" = some (.dict []) →
      searchResultTimestamp d = .none) ∧
    (∀ d : PyDict, pyGet? d "timestamp" = some (.str "") →
      searchResultTimestamp d = .none) := by
  refine ⟨rfl, fun t => rfl, fun b => rfl, fun n => rfl, fun xs => rfl, fun o => rfl,
    fun s => rfl, fun d => ⟨rfl, rfl⟩, fun d => ⟨rfl, rfl⟩, fun d => ⟨rfl, rfl⟩,
    fun d => ⟨rfl, rfl⟩, fun d => ⟨rfl, rfl⟩, fun d => ⟨rfl, rfl⟩, fun d => rfl,
    ?_, ?_, ?_, ?_⟩
  · intro d a rest h
    simp [searchResultTimestamp, pyGetD, h, pyTruthy]
  · intro d s hs h
    simp [searchResultTimestamp, pyGetD, h, pyTruthy, bne_iff_ne, hs]
  · intro d h
    simp [searchResultTimestamp, pyGetD, h, pyTruthy]
  · intro d h
    simp [searchResultTimestamp, pyGetD, h, pyTruthy]

/-- Witness for the timestamp characterization: a concrete envelope-style
`SearchResult` timestamp is decoded through its `utc` sub-field. -/
theorem timestamp_decode_characterization_witness :
    searchResultTimestamp [("timestamp", Py.dict [("utc", Py.str "2024-01-15T10:30:00")])] =
      parseDatetime (pyGetD [("utc", Py.str "2024-01-15T10:30:00")] "utc" Py.none) :=
  timestamp_decode_characterization.2.2.2.2.2.2.2.2.2.2.2.2.2.2.1
    [("timestamp", Py.dict [("utc", Py.str "2024-01-15T10:30:00")])]
    ("utc", Py.str "2024-01-15T10:30:00") [] rfl

end Lattice

